import Mathlib

/-
  Verification of the native extension module in
  capi_tests/simple/my_module.c: a single exported function that doubles
  an integer, its method registration table, and the module
  initialization entry point.

  Embedding conventions:
  - PyValue models a dynamically-typed runtime value (the Python object).
  - A call argument tuple is a List PyValue.
  - A C function returning PyObject* with the error-indicator convention
    (NULL return plus an error set on the per-call error channel) is
    modelled as Except PyErr PyValue: the error constructor is the
    NULL / no-result sentinel together with the error that was set.
  - The C type int is modelled as Int constrained to the 32-bit range;
    arithmetic on it wraps to the range via wrap32 (twos-complement
    machine behaviour, with overflow explicit as a reduction mod 2^32).
  - Allocation by the hosting runtime is modelled by an explicit Bool
    oracle: true means every allocation in the call succeeds, false
    means the allocation fails.  Runtime routines that can fail only by
    allocation failure take this oracle as an argument.
-/

deriving instance DecidableEq for Except

namespace MyModuleC

/-- The error kinds observable at this module boundary: the argument
conversion error raised by the argument parser, and the allocation
failure raised by the value constructors of the hosting runtime. -/
inductive PyErr where
  | argumentConversionError
  | memoryError
  deriving DecidableEq, Repr

/-- A dynamically-typed runtime value, as far as this module can
distinguish them: an arbitrary-precision integer, a text value, or any
other object (collapsed into noneVal since the module never inspects
more). -/
inductive PyValue where
  | intVal (n : Int)
  | strVal (s : String)
  | noneVal
  deriving DecidableEq, Repr

/-- Lower bound of the native C int range (32-bit signed). -/
def INT_MIN : Int := -(2 ^ 31)

/-- Upper bound of the native C int range (32-bit signed). -/
def INT_MAX : Int := 2 ^ 31 - 1

/-- Reduce an integer into the 32-bit twos-complement range: the value
a C int variable holds after a possibly overflowing arithmetic
operation. -/
def wrap32 (n : Int) : Int := (n + 2 ^ 31) % 2 ^ 32 - 2 ^ 31

/-- Modelled from the spec: conversion of one dynamic value to a native
signed integer, the single-value step of the argument-marshaling
convention used by the format unit i of PyArg_ParseTuple, whose
implementation is runtime code not under src/.  Per the spec it fails
with the argument-conversion error on a wrong type or an out-of-range
value. -/
def convertI (v : PyValue) : Except PyErr Int :=
  match v with
  | PyValue.intVal n =>
      if INT_MIN ≤ n ∧ n ≤ INT_MAX then Except.ok n
      else Except.error PyErr.argumentConversionError
  | _ => Except.error PyErr.argumentConversionError

/-- Modelled from the spec: PyArg_ParseTuple with format string i,
runtime code not under src/.  Per the spec it succeeds exactly when the
argument tuple holds exactly one value convertible to a native signed
integer, and fails with the argument-conversion error on a wrong
argument count, a wrong type, or an out-of-range value. -/
def parseTupleI (args : List PyValue) : Except PyErr Int :=
  match args with
  | [v] => convertI v
  | _ => Except.error PyErr.argumentConversionError

/-- Modelled from the spec: Py_BuildValue with format string i, runtime
code not under src/.  It constructs the runtime representation of a
native int; construction allocates, so with a failing allocator it
returns the no-result sentinel with an allocation error. -/
def Py_BuildValue_i (alloc : Bool) (result : Int) : Except PyErr PyValue :=
  if alloc then Except.ok (PyValue.intVal result)
  else Except.error PyErr.memoryError

/-- The exported function, from my_module.c lines 4-17: parse the
argument tuple with format i into a native int num; on parse failure
return NULL (here: the error); otherwise compute result = num * 2 in
C int arithmetic and return it via Py_BuildValue.  The self argument is
ignored, as in the source. -/
def my_function (alloc : Bool) (self : PyValue) (args : List PyValue) :
    Except PyErr PyValue :=
  match parseTupleI args with
  | Except.error e => Except.error e
  | Except.ok num =>
      let result : Int := wrap32 (num * 2)
      Py_BuildValue_i alloc result

/-- The METH_VARARGS calling-convention flag (fixed positional argument
tuple). -/
def METH_VARARGS : Nat := 1

/-- One row of the method registration table: exported name, function
pointer, calling-convention flags, documentation text.  The sentinel
row has no name and no function. -/
structure PyMethodDef where
  ml_name : Option String
  ml_meth : Option (Bool → PyValue → List PyValue → Except PyErr PyValue)
  ml_flags : Nat
  ml_doc : Option String

/-- The single real entry of the registration table, from my_module.c
line 21. -/
def myFunctionEntry : PyMethodDef :=
  { ml_name := Option.some "my_function"
    ml_meth := Option.some my_function
    ml_flags := METH_VARARGS
    ml_doc := Option.some "Doubles the input number." }

/-- The sentinel entry ending the registration table, from my_module.c
line 22. -/
def sentinelEntry : PyMethodDef :=
  { ml_name := Option.none
    ml_meth := Option.none
    ml_flags := 0
    ml_doc := Option.none }

/-- The method registration table of the module, from my_module.c
lines 20-23: the one real entry followed by the sentinel. -/
def MyModuleMethods : List PyMethodDef := [myFunctionEntry, sentinelEntry]

/-- Modelled from the spec: the loader lookup over a registration
table, runtime code not under src/.  It scans entries in order and the
sentinel (an entry with no name) terminates the scan, so entries past
the sentinel are never read; a name not found before the sentinel
yields not-found. -/
def lookupMethod (table : List PyMethodDef) (name : String) :
    Option PyMethodDef :=
  match table with
  | [] => Option.none
  | m :: rest =>
      match m.ml_name with
      | Option.none => Option.none
      | Option.some n =>
          if n = name then Option.some m else lookupMethod rest name

/-- The module definition record, from my_module.c lines 26-32 (the
PyModuleDef_HEAD_INIT base carries no information at this level and is
omitted). -/
structure PyModuleDef where
  m_name : String
  m_doc : Option String
  m_size : Int
  m_methods : List PyMethodDef

/-- The module definition structure mymodule, from my_module.c
lines 26-32. -/
def mymodule : PyModuleDef :=
  { m_name := "my_module"
    m_doc := Option.none
    m_size := -1
    m_methods := MyModuleMethods }

/-- A constructed module handle: the module object built from a module
definition. -/
structure PyModule where
  mdef : PyModuleDef

/-- Modelled from the spec: PyModule_Create, runtime code not under
src/.  Per the spec, module construction has no failure path beyond
allocation failure, which is passed through unchanged to the loader. -/
def PyModule_Create (alloc : Bool) (d : PyModuleDef) :
    Except PyErr PyModule :=
  if alloc then Except.ok { mdef := d }
  else Except.error PyErr.memoryError

/-- The module initialization entry point, from my_module.c
lines 35-37: no parameters of its own (the allocation oracle is the
environment), returning the created module or the failure passed
through from PyModule_Create. -/
def PyInit_my_module (alloc : Bool) : Except PyErr PyModule :=
  PyModule_Create alloc mymodule

/-- The observable state of the hosting runtime around one call: the
per-call error channel (error indicator), and all other observable
state, abstracted as an arbitrary type. -/
structure RuntimeState (σ : Type) where
  errorIndicator : Option PyErr
  other : σ

/-- One invocation of the adapter through the runtime calling
convention: the C function returns either a value, or NULL after
setting the error indicator on the per-call error channel. -/
def my_function_call {σ : Type} (alloc : Bool) (st : RuntimeState σ)
    (self : PyValue) (args : List PyValue) :
    RuntimeState σ × Option PyValue :=
  match my_function alloc self args with
  | Except.ok v => (st, Option.some v)
  | Except.error e =>
      ({ st with errorIndicator := Option.some e }, Option.none)

/-- A sequence of invocations threaded through the runtime state; each
element of the call list carries its allocation outcome, self and
argument tuple, and the outputs are collected in order. -/
def runCalls {σ : Type} (st : RuntimeState σ)
    (calls : List (Bool × PyValue × List PyValue)) :
    RuntimeState σ × List (Option PyValue) :=
  match calls with
  | [] => (st, [])
  | c :: rest =>
      let out := my_function_call c.1 st c.2.1 c.2.2
      let outs := runCalls out.1 rest
      (outs.1, out.2 :: outs.2)

/- ------------------------------------------------------------------ -/
/- Helper lemmas shared between claims                                 -/
/- ------------------------------------------------------------------ -/

/-- wrap32 is the identity on values already in the 32-bit range. -/
theorem wrap32_eq_of_range (n : Int) (h1 : -(2 ^ 31) ≤ n)
    (h2 : n < 2 ^ 31) : wrap32 n = n := by
  unfold wrap32
  omega

/-- The argument parser only ever produces the argument-conversion
error. -/
theorem parseTupleI_error_kind (args : List PyValue) (e : PyErr)
    (h : parseTupleI args = Except.error e) :
    e = PyErr.argumentConversionError := by
  unfold parseTupleI at h
  match args with
  | [] => exact (Except.error.injEq _ _).mp h.symm
  | [v] =>
      unfold convertI at h
      match v with
      | PyValue.intVal n =>
          by_cases hr : INT_MIN ≤ n ∧ n ≤ INT_MAX

          · simp [hr] at h
          · simp [hr] at h
            exact h.symm
      | PyValue.strVal s => exact (Except.error.injEq _ _).mp h.symm
      | PyValue.noneVal => exact (Except.error.injEq _ _).mp h.symm
  | v :: w :: rest => exact (Except.error.injEq _ _).mp h.symm

/- ------------------------------------------------------------------ -/
/- Claim theorems                                                      -/
/- ------------------------------------------------------------------ -/

/-- C1 (counterexample): the claim as stated fails at n = 2^30, an
integer within the native signed range: the doubled C int overflows and
the call returns the wrapped value -2^31, not 2 * 2^30. -/
theorem my_function_doubles_cex :
    INT_MIN ≤ (2 ^ 30 : Int) ∧ (2 ^ 30 : Int) ≤ INT_MAX ∧
    my_function true PyValue.noneVal [PyValue.intVal (2 ^ 30)] =
      Except.ok (PyValue.intVal (-(2 ^ 31))) ∧
    my_function true PyValue.noneVal [PyValue.intVal (2 ^ 30)] ≠
      Except.ok (PyValue.intVal (2 * 2 ^ 30)) := by
  refine ⟨by decide, by decide, by decide, by decide⟩

/-- C1 (amended): when allocation succeeds, a call with a single
integer argument n in the native range returns the 32-bit wrap of
2 * n; whenever 2 * n itself fits the native range — in particular for
n = 0 and for every negative in-range n — the result is exactly 2 * n
with no special-casing. -/
theorem my_function_doubles (self : PyValue) (n : Int)
    (h1 : INT_MIN ≤ n) (h2 : n ≤ INT_MAX) :
    my_function true self [PyValue.intVal n] =
      Except.ok (PyValue.intVal (wrap32 (n * 2))) ∧
    (-(2 ^ 30) ≤ n → n ≤ 2 ^ 30 - 1 → wrap32 (n * 2) = 2 * n) := by
  have hconv : convertI (PyValue.intVal n) = Except.ok n := by
    simp only [convertI]
    rw [if_pos ⟨h1, h2⟩]
  have hparse : parseTupleI [PyValue.intVal n] = Except.ok n := by
    simp only [parseTupleI]
    exact hconv
  constructor
  · simp [my_function, hparse, Py_BuildValue_i]
  · intro hlo hhi
    rw [wrap32_eq_of_range (n * 2) (by omega) (by omega)]
    omega

/-- C1 (witness): the amended theorem applied at n = -3: the
hypotheses hold at -3 and the call returns -6. -/
theorem my_function_doubles_witness :
    (INT_MIN ≤ (-3 : Int) ∧ (-3 : Int) ≤ INT_MAX) ∧
    my_function true PyValue.noneVal [PyValue.intVal (-3)] =
      Except.ok (PyValue.intVal (-6)) := by
  refine ⟨⟨by decide, by decide⟩, ?_⟩
  have h := my_function_doubles PyValue.noneVal (-3) (by decide) (by decide)
  rw [h.1, h.2 (by decide) (by decide)]
  norm_num

/-- C2: a call with zero arguments, a call with two or more arguments,
and a call whose single argument fails native-int conversion all return
the argument-conversion error and no result. -/
theorem my_function_bad_args (alloc : Bool) (self : PyValue) :
    my_function alloc self [] =
      Except.error PyErr.argumentConversionError ∧
    (∀ args : List PyValue, 2 ≤ args.length →
      my_function alloc self args =
        Except.error PyErr.argumentConversionError) ∧
    (∀ v : PyValue,
      convertI v = Except.error PyErr.argumentConversionError →
      my_function alloc self [v] =
        Except.error PyErr.argumentConversionError) := by
  refine ⟨rfl, ?_, ?_⟩
  · intro args hlen
    match args with
    | v :: w :: rest => rfl
  · intro v hv
    have hp : parseTupleI [v] =
        Except.error PyErr.argumentConversionError := by
      simp only [parseTupleI]
      exact hv
    simp [my_function, hp]

/-- C2 (witness): the theorem applied at a two-argument call and at a
single text argument. -/
theorem my_function_bad_args_witness :
    (2 ≤ ([PyValue.intVal 1, PyValue.intVal 2] : List PyValue).length ∧
      my_function true PyValue.noneVal
        [PyValue.intVal 1, PyValue.intVal 2] =
        Except.error PyErr.argumentConversionError) ∧
    (convertI (PyValue.strVal "x") =
        Except.error PyErr.argumentConversionError ∧
      my_function true PyValue.noneVal [PyValue.strVal "x"] =
        Except.error PyErr.argumentConversionError) :=
  ⟨⟨by decide,
    (my_function_bad_args true PyValue.noneVal).2.1 _ (by decide)⟩,
   ⟨by decide,
    (my_function_bad_args true PyValue.noneVal).2.2 _ (by decide)⟩⟩

/-- C3 (counterexample): the claim that every failure is the
argument-conversion error is false: with a failing allocator, a call
whose single argument is a perfectly convertible integer fails with the
allocation error, a distinct error kind. -/
theorem my_function_error_kinds_cex :
    parseTupleI [PyValue.intVal 1] = Except.ok 1 ∧
    my_function false PyValue.noneVal [PyValue.intVal 1] =
      Except.error PyErr.memoryError ∧
    PyErr.memoryError ≠ PyErr.argumentConversionError := by
  refine ⟨by decide, by decide, by decide⟩

/-- C3 (amended): a call fails with the argument-conversion error
exactly when the input cannot be interpreted as one native signed
integer (wrong count, wrong type, out of range); the only other
possible failure is the allocation error when constructing the result
value fails, which happens exactly on an allocation failure after a
successful conversion. -/
theorem my_function_error_kinds (alloc : Bool) (self : PyValue)
    (args : List PyValue) (e : PyErr) :
    my_function alloc self args = Except.error e ↔
      ((e = PyErr.argumentConversionError ∧
        parseTupleI args =
          Except.error PyErr.argumentConversionError) ∨
       (e = PyErr.memoryError ∧ alloc = false ∧
        ∃ n : Int, parseTupleI args = Except.ok n)) := by
  unfold my_function
  cases hp : parseTupleI args with
  | error e0 =>
      have he0 := parseTupleI_error_kind args e0 hp
      subst he0
      simp [hp]
      exact eq_comm
  | ok n =>
      unfold Py_BuildValue_i
      cases alloc with
      | true => simp [hp]
      | false =>
          simp [hp]
          exact eq_comm

/-- C4: on any call whose argument conversion fails, the adapter
returns the no-result sentinel with the conversion error immediately,
identically for every allocation outcome — the doubling computation and
result construction are never reached and no partial result exists. -/
theorem my_function_fail_fast (alloc : Bool) (self : PyValue)
    (args : List PyValue)
    (h : parseTupleI args = Except.error PyErr.argumentConversionError) :
    my_function alloc self args =
      Except.error PyErr.argumentConversionError ∧
    my_function alloc self args = my_function true self args := by
  unfold my_function
  rw [h]
  exact ⟨rfl, rfl⟩

/-- C4 (witness): the theorem applied to the empty-argument call with a
failing allocator. -/
theorem my_function_fail_fast_witness :
    parseTupleI [] = Except.error PyErr.argumentConversionError ∧
    my_function false PyValue.noneVal [] =
      Except.error PyErr.argumentConversionError :=
  ⟨by decide,
   (my_function_fail_fast false PyValue.noneVal [] (by decide)).1⟩

/-- C5: the registration table has exactly one exported (named) entry;
lookup of my_function finds that entry, whose name, calling-convention
flag, documentation text and function pointer are as registered; the
final entry of the table is the sentinel; lookup of any other name
returns not-found; and lookup never reads past the sentinel: entries
appended after it can never change any lookup result. -/
theorem registration_table_props :
    (MyModuleMethods.filter (fun m => m.ml_name.isSome)).length = 1 ∧
    MyModuleMethods.getLast? = Option.some sentinelEntry ∧
    lookupMethod MyModuleMethods "my_function" =
      Option.some myFunctionEntry ∧
    myFunctionEntry.ml_name = Option.some "my_function" ∧
    myFunctionEntry.ml_flags = METH_VARARGS ∧
    myFunctionEntry.ml_doc = Option.some "Doubles the input number." ∧
    myFunctionEntry.ml_meth = Option.some my_function ∧
    (∀ name : String, name ≠ "my_function" →
      lookupMethod MyModuleMethods name = Option.none) ∧
    (∀ (name : String) (extra : List PyMethodDef),
      lookupMethod (MyModuleMethods ++ extra) name =
        lookupMethod MyModuleMethods name) := by
  refine ⟨rfl, rfl, rfl, rfl, rfl, rfl, rfl, ?_, ?_⟩
  · intro name hne
    have hcond : ¬ ("my_function" = name) := fun h => hne h.symm
    simp [lookupMethod, MyModuleMethods, myFunctionEntry, sentinelEntry,
      hcond]
  · intro name extra
    by_cases hcond : ("my_function" = name)
    · simp [lookupMethod, MyModuleMethods, myFunctionEntry,
        sentinelEntry, hcond]
    · simp [lookupMethod, MyModuleMethods, myFunctionEntry,
        sentinelEntry, hcond]

/-- C5 (witness): the lookup clause of the theorem applied at the
concrete absent name other_function. -/
theorem registration_table_props_witness :
    ("other_function" : String) ≠ "my_function" ∧
    lookupMethod MyModuleMethods "other_function" = Option.none :=
  ⟨by decide,
   registration_table_props.2.2.2.2.2.2.2.1 "other_function" (by decide)⟩

/-- C6: an invocation leaves every observable runtime component other
than the per-call error channel unchanged; on a successful call the
whole state, error channel included, is unchanged; and on a failing
call the state differs from the initial one only in the error
indicator now holding the signalled error. -/
theorem my_function_call_frame {σ : Type} (alloc : Bool)
    (st : RuntimeState σ) (self : PyValue) (args : List PyValue) :
    ((my_function_call alloc st self args).1).other = st.other ∧
    (∀ v : PyValue,
      (my_function_call alloc st self args).2 = Option.some v →
      (my_function_call alloc st self args).1 = st) ∧
    (∀ e : PyErr, my_function alloc self args = Except.error e →
      (my_function_call alloc st self args).1 =
        { st with errorIndicator := Option.some e }) := by
  unfold my_function_call
  cases h : my_function alloc self args with
  | ok v => exact ⟨rfl, fun _ _ => rfl, fun e he => by simp at he⟩
  | error e =>
      refine ⟨rfl, fun v hv => by simp at hv, fun e0 he0 => ?_⟩
      have : e = e0 := (Except.error.injEq _ _).mp he0
      rw [this]

/-- C6 (witness): the theorem applied to a concrete successful call and
a concrete failing call from the same concrete state. -/
theorem my_function_call_frame_witness :
    ((my_function_call true
        (RuntimeState.mk Option.none (0 : Nat)) PyValue.noneVal
        [PyValue.intVal 3]).2 = Option.some (PyValue.intVal 6) ∧
      (my_function_call true
        (RuntimeState.mk Option.none (0 : Nat)) PyValue.noneVal
        [PyValue.intVal 3]).1 =
        RuntimeState.mk Option.none (0 : Nat)) ∧
    (my_function true PyValue.noneVal [] =
        Except.error PyErr.argumentConversionError ∧
      (my_function_call true
        (RuntimeState.mk Option.none (0 : Nat)) PyValue.noneVal
        []).1 =
        RuntimeState.mk (Option.some PyErr.argumentConversionError)
          (0 : Nat)) :=
  ⟨⟨by decide,
    (my_function_call_frame true
      (RuntimeState.mk Option.none (0 : Nat)) PyValue.noneVal
      [PyValue.intVal 3]).2.1 (PyValue.intVal 6) (by decide)⟩,
   ⟨by decide,
    (my_function_call_frame true
      (RuntimeState.mk Option.none (0 : Nat)) PyValue.noneVal
      []).2.2 PyErr.argumentConversionError (by decide)⟩⟩

/-- C7 (counterexample): the claim that two invocations with equal
argument sequences always have equal outcomes is false: with the same
single argument 1 an invocation under a succeeding allocator returns
the doubled value while one under a failing allocator returns the
allocation error. -/
theorem calls_independent_cex :
    my_function true PyValue.noneVal [PyValue.intVal 1] =
      Except.ok (PyValue.intVal 2) ∧
    my_function false PyValue.noneVal [PyValue.intVal 1] =
      Except.error PyErr.memoryError ∧
    my_function true PyValue.noneVal [PyValue.intVal 1] ≠
      my_function false PyValue.noneVal [PyValue.intVal 1] := by
  refine ⟨by decide, by decide, by decide⟩

/-- C7 (amended): the adapter is stateless and deterministic up to the
allocation outcome: in any sequence of invocations, each outcome is a
fixed function of the own inputs of that invocation (allocation outcome,
self, argument sequence) alone — so two invocations with equal inputs
have equal outcomes — and the outcome list never depends on the initial
runtime state or on any earlier call. -/
theorem calls_independent {σ : Type} (st st' : RuntimeState σ)
    (calls : List (Bool × PyValue × List PyValue)) :
    (runCalls st calls).2 = calls.map (fun c =>
      match my_function c.1 c.2.1 c.2.2 with
      | Except.ok v => Option.some v
      | Except.error _ => Option.none) ∧
    (runCalls st calls).2 = (runCalls st' calls).2 := by
  have key : ∀ (τ : Type) (s : RuntimeState τ)
      (cs : List (Bool × PyValue × List PyValue)),
      (runCalls s cs).2 = cs.map (fun c =>
        match my_function c.1 c.2.1 c.2.2 with
        | Except.ok v => Option.some v
        | Except.error _ => Option.none) := by
    intro τ s cs
    induction cs generalizing s with
    | nil => rfl
    | cons c rest ih =>
        simp only [runCalls, List.map, my_function_call]
        cases h : my_function c.1 c.2.1 c.2.2 with
        | ok v => simp [ih]
        | error e => simp [ih]
  exact ⟨key σ st calls, by rw [key σ st calls, key σ st' calls]⟩

/-- C8: every invocation terminates with an explicit outcome: for
every allocation outcome, self and argument sequence, the call
evaluates to a result value or to an error — the adapter is a total
function with no other possibility. -/
theorem my_function_total (alloc : Bool) (self : PyValue)
    (args : List PyValue) :
    (∃ v : PyValue, my_function alloc self args = Except.ok v) ∨
    (∃ e : PyErr, my_function alloc self args = Except.error e) := by
  cases h : my_function alloc self args with
  | ok v => exact Or.inl ⟨v, rfl⟩
  | error e => exact Or.inr ⟨e, rfl⟩

/-- C9: the module initialization entry point passes module creation
through unchanged: it returns the module handle built from the module
definition when allocation succeeds, and its only failure is the
allocation failure of module construction, passed through unchanged to
the loader. -/
theorem pyinit_spec :
    (∀ alloc : Bool,
      PyInit_my_module alloc = PyModule_Create alloc mymodule) ∧
    PyInit_my_module true = Except.ok (PyModule.mk mymodule) ∧
    PyInit_my_module false = Except.error PyErr.memoryError ∧
    (∀ (alloc : Bool) (e : PyErr),
      PyInit_my_module alloc = Except.error e →
      alloc = false ∧ e = PyErr.memoryError) := by
  refine ⟨fun _ => rfl, rfl, rfl, ?_⟩
  intro alloc e h
  cases alloc with
  | true =>
      exact absurd h (by simp [PyInit_my_module, PyModule_Create])
  | false =>
      have he : PyErr.memoryError = e := by
        simpa [PyInit_my_module, PyModule_Create] using h
      exact ⟨rfl, he.symm⟩

/-- C9 (witness): the failure clause of the theorem applied at the
failing allocation outcome. -/
theorem pyinit_spec_witness :
    PyInit_my_module false = Except.error PyErr.memoryError ∧
    (false = false ∧ PyErr.memoryError = PyErr.memoryError) :=
  ⟨pyinit_spec.2.2.1,
   pyinit_spec.2.2.2 false PyErr.memoryError pyinit_spec.2.2.1⟩

/-- C10: successful argument conversion does not guarantee a result:
with the single in-range integer argument 5 the conversion succeeds,
yet when constructing the runtime representation of the doubled result
fails (allocation failure) the call still returns the no-result
sentinel with an error. -/
theorem build_value_can_fail :
    parseTupleI [PyValue.intVal 5] = Except.ok 5 ∧
    my_function false PyValue.noneVal [PyValue.intVal 5] =
      Except.error PyErr.memoryError := by
  refine ⟨by decide, by decide⟩

end MyModuleC
